import Mathlib

/-!
Verification of the pyDot2Dot bootstrap launcher
(`src/app_launcher/app_launcher.cpp`) against its design document.

The C++ program is embedded shallowly: filesystem state is a record of the
marker files, every external command outcome is a parameter of the run
(`Env`), and `main` becomes a pure function from an environment and a
starting filesystem to an exit code, a final filesystem and a trace of
observable events.
-/

/-- Character class of the C `isspace` predicate (C locale), used by the
source's `trim` helper. -/
def isSpaceChar (c : Char) : Bool :=
  c = ' ' || c = '\t' || c = '\n' || c = Char.ofNat 11 || c = Char.ofNat 12 || c = '\r'

/-- List-level surrounding-whitespace trim: drop leading whitespace, then
trailing whitespace, exactly as the source's `trim` (erase up to the first
non-space from the front, and from the first non-space of the reverse to the
end). -/
def trimList (l : List Char) : List Char :=
  ((l.dropWhile isSpaceChar).reverse.dropWhile isSpaceChar).reverse

/-- Embedding of the source's `trim` (in-place trim of surrounding
whitespace). -/
def trim (s : String) : String :=
  String.mk (trimList s.data)

/-- Embedding of `std::getline` on a file's contents: the text up to (not
including) the first newline. -/
def firstLine (s : String) : String :=
  String.mk (s.data.takeWhile (fun c => c != '\n'))

/-- Filesystem state the bootstrap observes and mutates: the `temp` directory,
the `.installed` sentinel and the `.git_last_commit` marker (`none` = file
absent, `some c` = file present with contents `c`). -/
structure FS where
  tempExists : Bool
  installed : Option String
  gitLast : Option String
deriving DecidableEq

/-- Embedding of `get_git_commit_hash`: the probe result `g` is the outcome of
`exec "git rev-parse HEAD"` (`none` = the call threw, caught by the source's
`catch` which returns `""`; `some raw` = captured output). On success the
output is trimmed. -/
def get_git_commit_hash (g : Option String) : String :=
  match g with
  | none => ""
  | some raw => trim raw

/-- Embedding of `is_first_time_installed`: true iff the `.installed` marker is
absent. -/
def is_first_time_installed (fs : FS) : Bool :=
  fs.installed.isNone

/-- Embedding of `git_has_updated`: empty current hash means no repository
(skip, `false`); absent marker means update (`true`); otherwise compare the
trimmed first line of the marker against the current hash. -/
def git_has_updated (g : Option String) (fs : FS) : Bool :=
  let current_commit_hash := get_git_commit_hash g
  if current_commit_hash = "" then false
  else
    match fs.gitLast with
    | none => true
    | some content =>
      let last_commit_hash := trim (firstLine content)
      decide (last_commit_hash ≠ current_commit_hash)

/-- The Install Gate as the source computes it:
`is_first_time_installed(temp) || git_has_updated(temp)`. -/
def should_install (g : Option String) (fs : FS) : Bool :=
  is_first_time_installed fs || git_has_updated g fs

/-- The spec's four-branch Install Gate, written from the spec's words
(section 4.2): true if the Installed Marker is absent; else false if the
current revision identifier is unobtainable (`probe = none`); else true if the
Revision Marker is absent; else true iff the identifiers differ after trimming
surrounding whitespace from both. -/
def should_install_spec (installedExists : Bool) (probe : Option String)
    (recorded : Option String) : Bool :=
  if !installedExists then true
  else
    match probe with
    | none => false
    | some cur =>
      match recorded with
      | none => true
      | some recd => decide (trim cur ≠ trim recd)

/-- Abstraction from the raw probe result to the spec's probe outcome: the
revision identifier is unobtainable exactly when the source's
`get_git_commit_hash` comes back empty. -/
def probeOutcome (g : Option String) : Option String :=
  if get_git_commit_hash g = "" then none
  else some (get_git_commit_hash g)

/-- Observable events of one bootstrap run, in program order. -/
inductive Event where
  | probe
  | errLine (msg : String)
  | createTemp
  | readInstalled
  | gitProbe
  | readGitLast
  | runPip
  | writeInstalled
  | writeGitLast
  | launch (cmd : String)
deriving DecidableEq

/-- Outcomes of the external world for one run: the interpreter probe
(`none` = `popen` failed, i.e. the `exec` call threw), the successive raw
results of `exec "git rev-parse HEAD"`, the exit status of the pip command,
the exit status of the launched script, the forwarded arguments and the
executable's directory. -/
structure Env where
  pythonProbe : Option String
  gitProbes : List (Option String)
  pipExit : Int
  childExit : Int
  args : List String
  execDir : String

/-- The result of the i-th `git rev-parse HEAD` invocation of a run (the
source may probe twice: once in the gate, once when writing the marker); a
missing entry counts as a failed invocation. -/
def probeAt (env : Env) (i : Nat) : Option String :=
  (env.gitProbes.getD i none)

/-- Result of one bootstrap run: the process exit code, the final filesystem
and the trace of events. -/
structure RunResult where
  exitCode : Int
  fs : FS
  events : List Event
deriving DecidableEq

/-- Embedding of `mark_as_installed`: create the `.installed` sentinel with
contents `"installed"`. -/
def mark_as_installed (fs : FS) : FS :=
  { fs with installed := some "installed" }

/-- Embedding of `update_git_commit_hash`: run a fresh revision probe and
overwrite `.git_last_commit` with its (trimmed) result. -/
def update_git_commit_hash (g : Option String) (fs : FS) : FS :=
  { fs with gitLast := some (get_git_commit_hash g) }

/-- Embedding of `get_temp_folder_path`: create the `temp` directory when it
does not exist yet. -/
def get_temp_folder_path (fs : FS) : FS × List Event :=
  if fs.tempExists then (fs, []) else ({ fs with tempExists := true }, [Event.createTemp])

/-- Diagnostic printed when the interpreter probe fails. -/
def errPython : String := "Error: Python is not installed or not in PATH."

/-- Diagnostic printed when the pip command exits non-zero. -/
def errPip : String := "Error: Failed to install requirements."

/-- Diagnostic printed when the launched script exits non-zero. -/
def errChild : String := "Error: Python script execution failed."

/-- Path of the entry script, resolved relative to the executable's
directory. -/
def scriptPath (env : Env) : String :=
  env.execDir ++ "/src/main.py"

/-- Embedding of the command-line construction in `main` (step 3): start from
`"python " + script` and append `" " + arg` for each forwarded argument. -/
def python_command (script : String) (args : List String) : String :=
  args.foldl (fun cmd a => cmd ++ " " ++ a) ("python " ++ script)

/-- Marker-file reads performed by the Install Gate: `is_first_time_installed`
checks `.installed`; `git_has_updated` runs only when that marker exists, and
touches `.git_last_commit` only when the revision probe is non-empty. -/
def gateEvents (g : Option String) (fs : FS) : List Event :=
  Event.readInstalled ::
    (if is_first_time_installed fs then []
     else if get_git_commit_hash g = "" then [Event.gitProbe]
     else [Event.gitProbe, Event.readGitLast])

/-- Events of a run up to and including the Install Gate: interpreter probe,
temp-folder creation, gate reads. -/
def preEvents (g : Option String) (fs0 : FS) : List Event :=
  Event.probe :: (get_temp_folder_path fs0).2 ++ gateEvents g (get_temp_folder_path fs0).1

/-- Step 3 of `main`: build the command, run it synchronously, report a
non-zero child as a failure with exit code 1, otherwise exit 0. -/
def launchPhase (env : Env) (fs : FS) (evs : List Event) : RunResult :=
  let cmd := python_command (scriptPath env) env.args
  if env.childExit ≠ 0 then
    { exitCode := 1, fs := fs, events := evs ++ [Event.launch cmd, Event.errLine errChild] }
  else
    { exitCode := 0, fs := fs, events := evs ++ [Event.launch cmd] }

/-- Embedding of `main`: probe the interpreter (abort with 1 on failure),
create the temp folder, evaluate the Install Gate, conditionally run pip
(abort with 1 on failure, else write both markers with a fresh revision
probe), then launch the script. The gate consumes revision probe 0 only when
the Installed Marker exists (short-circuit `||`), so the write-time probe is
index 0 on a first run and index 1 otherwise. -/
def runMain (env : Env) (fs0 : FS) : RunResult :=
  match env.pythonProbe with
  | none =>
    { exitCode := 1, fs := fs0, events := [Event.probe, Event.errLine errPython] }
  | some _ =>
    let fs1 := (get_temp_folder_path fs0).1
    let g0 := probeAt env 0
    let pre := preEvents g0 fs0
    if should_install g0 fs1 then
      if env.pipExit ≠ 0 then
        { exitCode := 1, fs := fs1, events := pre ++ [Event.runPip, Event.errLine errPip] }
      else
        let widx : Nat := if is_first_time_installed fs1 then 0 else 1
        let gw := probeAt env widx
        let fs2 := update_git_commit_hash gw (mark_as_installed fs1)
        launchPhase env fs2
          (pre ++ [Event.runPip, Event.writeInstalled, Event.gitProbe, Event.writeGitLast])
    else
      launchPhase env fs1 pre

/-- Number of Dependency Installer (pip) invocations in a run. -/
def pipCount (r : RunResult) : Nat :=
  r.events.count Event.runPip

/-- Recognizer for Script Launcher invocations. -/
def isLaunch : Event → Bool
  | Event.launch _ => true
  | _ => false

/-- Number of Script Launcher invocations in a run. -/
def launchCount (r : RunResult) : Nat :=
  r.events.countP isLaunch

/-- Accumulator-based splitting of a character list into words separated by
spaces; empty fields are dropped, as a POSIX shell does when it field-splits
an unquoted command line. -/
def wordsAux : List Char → List Char → List (List Char)
  | [], acc => if acc = [] then [] else [acc.reverse]
  | c :: rest, acc =>
    if c = ' ' then
      if acc = [] then wordsAux rest [] else acc.reverse :: wordsAux rest []
    else
      wordsAux rest (c :: acc)

/-- Space-separated words of a character list. -/
def words (l : List Char) : List (List Char) :=
  wordsAux l []

/-- Arguments the launched script receives once the shell field-splits the
single command string built by the bootstrap: every word after the
interpreter word and the script-path word. -/
def receivedArgs (cmd : String) : List String :=
  ((words cmd.data).drop 2).map String.mk

/-- Joining a list of strings with single space characters (the shape the
design ascribes to the built command line). -/
def spaceJoin : List String → String
  | [] => ""
  | [w] => w
  | w :: ws => w ++ " " ++ spaceJoin ws

/-- The character suffix contributed by the forwarded arguments: one space
before each argument. -/
def argsChars (args : List String) : List Char :=
  args.foldr (fun a acc => ' ' :: (a.data ++ acc)) []

/-- A concrete starting filesystem: nothing exists yet (first run). -/
def fsEmpty : FS :=
  { tempExists := false, installed := none, gitLast := none }

/-- A concrete filesystem with both markers present. -/
def fsReady : FS :=
  { tempExists := true, installed := some "installed", gitLast := some "aaa" }

/-- A concrete filesystem with the Installed Marker present but no Revision
Marker. -/
def fsNoRev : FS :=
  { tempExists := true, installed := some "installed", gitLast := none }

/-- A concrete environment whose interpreter probe fails. -/
def envProbeFail : Env :=
  { pythonProbe := none, gitProbes := [some "aaa\n"], pipExit := 0, childExit := 0,
    args := ["--x", "1"], execDir := "/opt/app" }

/-- A second concrete environment whose interpreter probe fails. -/
def envProbeFail2 : Env :=
  { pythonProbe := none, gitProbes := [], pipExit := 7, childExit := 2,
    args := [], execDir := "/opt/other" }

/-- A concrete environment in which the launched script exits with status 3. -/
def envChild3 : Env :=
  { pythonProbe := some "Python 3.11.4\n", gitProbes := [], pipExit := 0, childExit := 3,
    args := [], execDir := "/opt/app" }

/-- A concrete environment in which pip fails with status 3. -/
def envPipFail : Env :=
  { pythonProbe := some "Python 3.11.4\n", gitProbes := [some "bbb\n"], pipExit := 3,
    childExit := 0, args := [], execDir := "/opt/app" }

/-- A concrete environment for a successful first install. -/
def envInstallOk : Env :=
  { pythonProbe := some "Python 3.11.4\n", gitProbes := [some "  bbb\n", some "  bbb\n"],
    pipExit := 0, childExit := 0, args := [], execDir := "/opt/app" }

/-- A concrete environment whose gate-time revision probe succeeds but whose
write-time revision probe fails. -/
def envSecondProbeFails : Env :=
  { pythonProbe := some "Python 3.11.4\n", gitProbes := [some "ccc\n", none],
    pipExit := 0, childExit := 0, args := [], execDir := "/opt/app" }

/-- A concrete environment for the idempotence scenario (both runs see the
same revision `ddd`). -/
def envIdem : Env :=
  { pythonProbe := some "Python 3.11.4\n", gitProbes := [some "ddd\n", some "ddd\n"],
    pipExit := 0, childExit := 0, args := [], execDir := "/opt/app" }

lemma dropWhile_self_idem (p : Char → Bool) (l : List Char) :
    (l.dropWhile p).dropWhile p = l.dropWhile p := by
  induction l with
  | nil => rfl
  | cons a t ih =>
    by_cases h : p a
    · rw [List.dropWhile_cons, if_pos h, ih]
    · rw [List.dropWhile_cons, if_neg h, List.dropWhile_cons, if_neg h]

lemma head_dropWhile_false (p : Char → Bool) (l : List Char) (a : Char) (A : List Char)
    (h : l.dropWhile p = a :: A) : p a = false := by
  induction l with
  | nil => simp [List.dropWhile] at h
  | cons x t ih =>
    by_cases hx : p x
    · rw [List.dropWhile_cons, if_pos hx] at h
      exact ih h
    · rw [List.dropWhile_cons, if_neg hx] at h
      injection h with h1 h2
      subst h1
      simpa using hx

lemma dropWhile_append_singleton (p : Char → Bool) (a : Char) (ha : p a = false)
    (X : List Char) : ∃ Y, (X ++ [a]).dropWhile p = Y ++ [a] := by
  induction X with
  | nil =>
    refine ⟨[], ?_⟩
    simp [List.dropWhile_cons, ha]
  | cons x t ih =>
    by_cases hx : p x
    · obtain ⟨Y, hY⟩ := ih
      exact ⟨Y, by rw [List.cons_append, List.dropWhile_cons, if_pos hx, hY]⟩
    · exact ⟨x :: t, by rw [List.cons_append, List.dropWhile_cons, if_neg hx]⟩

lemma trimList_dropWhile (l : List Char) :
    (trimList l).dropWhile isSpaceChar = trimList l := by
  unfold trimList
  cases hA : l.dropWhile isSpaceChar with
  | nil => simp
  | cons a A =>
    have ha : isSpaceChar a = false := head_dropWhile_false _ _ _ _ hA
    obtain ⟨Y, hY⟩ := dropWhile_append_singleton isSpaceChar a ha A.reverse
    rw [List.reverse_cons, hY, List.reverse_append]
    simp [List.dropWhile_cons, ha]

lemma trimList_idem (l : List Char) : trimList (trimList l) = trimList l := by
  have h1 : trimList (trimList l) =
      ((trimList l).reverse.dropWhile isSpaceChar).reverse := by
    conv_lhs => rw [trimList, trimList_dropWhile]
  have h2 : (trimList l).reverse = (l.dropWhile isSpaceChar).reverse.dropWhile isSpaceChar := by
    rw [trimList, List.reverse_reverse]
  rw [h1, h2, dropWhile_self_idem]
  rfl

/-- Trimming is idempotent: the source's probe output is already trimmed, so
trimming it again is the identity. -/
lemma trim_trim (s : String) : trim (trim s) = trim s := by
  apply congrArg String.mk
  exact trimList_idem s.data

lemma decide_ne_comm (a b : String) : decide (a ≠ b) = decide (b ≠ a) := by
  by_cases h : a = b
  · subst h
    rfl
  · simp [h, Ne.symm h]

lemma trim_get_git_commit_hash (g : Option String) :
    trim (get_git_commit_hash g) = get_git_commit_hash g := by
  cases g with
  | none => rfl
  | some raw => exact trim_trim raw

lemma get_temp_folder_path_fst (fs : FS) :
    (get_temp_folder_path fs).1 = { fs with tempExists := true } := by
  unfold get_temp_folder_path
  split
  · cases fs with
    | mk t i g => simp_all
  · rfl

lemma should_install_temp (g : Option String) (fs : FS) (b : Bool) :
    should_install g { fs with tempExists := b } = should_install g fs := rfl

lemma should_install_temp_folder (g : Option String) (fs : FS) :
    should_install g (get_temp_folder_path fs).1 = should_install g fs := by
  rw [get_temp_folder_path_fst]
  rfl

lemma git_has_updated_temp (g : Option String) (fs : FS) (b : Bool) :
    git_has_updated g { fs with tempExists := b } = git_has_updated g fs := rfl

lemma launchPhase_fs (env : Env) (fs : FS) (evs : List Event) :
    (launchPhase env fs evs).fs = fs := by
  unfold launchPhase
  split <;> rfl

lemma launchPhase_exitCode (env : Env) (fs : FS) (evs : List Event) :
    (launchPhase env fs evs).exitCode = if env.childExit = 0 then 0 else 1 := by
  unfold launchPhase
  by_cases h : env.childExit = 0 <;> simp [h]

lemma launchPhase_events (env : Env) (fs : FS) (evs : List Event) :
    (launchPhase env fs evs).events =
      evs ++ (Event.launch (python_command (scriptPath env) env.args) ::
        if env.childExit = 0 then [] else [Event.errLine errChild]) := by
  unfold launchPhase
  by_cases h : env.childExit = 0 <;> simp [h]

lemma mem_gateEvents (e : Event) (g : Option String) (fs : FS)
    (h : e ∈ gateEvents g fs) :
    e = Event.readInstalled ∨ e = Event.gitProbe ∨ e = Event.readGitLast := by
  unfold gateEvents at h
  split_ifs at h
  all_goals simp_all
  all_goals tauto

lemma mem_temp_events (e : Event) (fs : FS) (h : e ∈ (get_temp_folder_path fs).2) :
    e = Event.createTemp := by
  unfold get_temp_folder_path at h
  split at h <;> simp_all

lemma mem_preEvents (e : Event) (g : Option String) (fs0 : FS)
    (h : e ∈ preEvents g fs0) :
    e = Event.probe ∨ e = Event.createTemp ∨ e = Event.readInstalled ∨
      e = Event.gitProbe ∨ e = Event.readGitLast := by
  unfold preEvents at h
  rcases List.mem_cons.mp h with h1 | h1
  · exact Or.inl h1
  · rcases List.mem_append.mp h1 with h2 | h2
    · exact Or.inr (Or.inl (mem_temp_events e fs0 h2))
    · rcases mem_gateEvents e g _ h2 with h3 | h3 | h3
      · exact Or.inr (Or.inr (Or.inl h3))
      · exact Or.inr (Or.inr (Or.inr (Or.inl h3)))
      · exact Or.inr (Or.inr (Or.inr (Or.inr h3)))

lemma preEvents_no_pip (g : Option String) (fs0 : FS) :
    Event.runPip ∉ preEvents g fs0 := by
  intro h
  rcases mem_preEvents _ _ _ h with h1 | h1 | h1 | h1 | h1 <;> exact Event.noConfusion h1

lemma preEvents_no_write (g : Option String) (fs0 : FS) :
    Event.writeInstalled ∉ preEvents g fs0 ∧ Event.writeGitLast ∉ preEvents g fs0 := by
  constructor <;> intro h <;>
    rcases mem_preEvents _ _ _ h with h1 | h1 | h1 | h1 | h1 <;> exact Event.noConfusion h1

lemma preEvents_no_launch (g : Option String) (fs0 : FS) (c : String) :
    Event.launch c ∉ preEvents g fs0 := by
  intro h
  rcases mem_preEvents _ _ _ h with h1 | h1 | h1 | h1 | h1 <;> exact Event.noConfusion h1

lemma preEvents_countP_launch (g : Option String) (fs0 : FS) :
    List.countP isLaunch (preEvents g fs0) = 0 := by
  apply List.countP_eq_zero.mpr
  intro e he
  rcases mem_preEvents _ _ _ he with h1 | h1 | h1 | h1 | h1 <;> subst h1 <;> simp [isLaunch]

lemma preEvents_count_pip (g : Option String) (fs0 : FS) :
    List.count Event.runPip (preEvents g fs0) = 0 :=
  List.count_eq_zero.mpr (preEvents_no_pip g fs0)

/-- C1 (counterexample): the source's gate reads only the first line of the
Revision Marker (`std::getline`), so a marker whose contents span two lines
makes the code disagree with the spec's four-branch algorithm: with current
hash `"abc"` and recorded contents `"abc\ndef"`, the code answers `false` (no
reinstall) while the spec's trimmed-contents comparison answers `true`. -/
theorem install_gate_first_line_counterexample :
    should_install (some "abc")
        { tempExists := true, installed := some "installed", gitLast := some "abc\ndef" } = false
      ∧ should_install_spec true (probeOutcome (some "abc")) (some "abc\ndef") = true := by
  constructor
  · rfl
  · rfl

/-- C1 (amended): the Install Gate decision equals the spec's four-branch
algorithm applied to the first line of the Revision Marker contents (the
source reads the recorded identifier with `std::getline`, i.e. it is the
marker's first line, not its whole contents). -/
theorem install_gate_matches_spec_on_first_line (g : Option String) (fs : FS) :
    should_install g fs =
      should_install_spec fs.installed.isSome (probeOutcome g)
        (Option.map firstLine fs.gitLast) := by
  cases hins : fs.installed with
  | none =>
    simp [should_install, is_first_time_installed, should_install_spec, hins]
  | some s =>
    by_cases hg : get_git_commit_hash g = ""
    · simp [should_install, is_first_time_installed, git_has_updated,
        should_install_spec, probeOutcome, hins, hg]
    · cases hlast : fs.gitLast with
      | none =>
        simp [should_install, is_first_time_installed, git_has_updated,
          should_install_spec, probeOutcome, hins, hg, hlast]
      | some content =>
        simp only [should_install, is_first_time_installed, git_has_updated,
          should_install_spec, probeOutcome, hins, hlast, Option.isNone_some,
          Option.isSome_some, Bool.not_true, if_neg hg, Bool.false_or]
        show decide (trim (firstLine content) ≠ get_git_commit_hash g) =
          decide (trim (get_git_commit_hash g) ≠ trim (firstLine content))
        rw [trim_get_git_commit_hash, decide_ne_comm]

/-- C3: when the interpreter probe fails, the bootstrap prints a diagnostic on
the error stream, exits with status 1, and runs no later step: the Install
Gate never reads a marker, pip never runs, and the script is never
launched. -/
theorem interpreter_probe_failure_fails_fast (env : Env) (fs : FS)
    (h : env.pythonProbe = none) :
    (runMain env fs).exitCode = 1
    ∧ Event.errLine errPython ∈ (runMain env fs).events
    ∧ Event.readInstalled ∉ (runMain env fs).events
    ∧ Event.readGitLast ∉ (runMain env fs).events
    ∧ Event.runPip ∉ (runMain env fs).events
    ∧ (∀ c, Event.launch c ∉ (runMain env fs).events) := by
  simp [runMain, h]

/-- C3 witness at a concrete run. -/
theorem interpreter_probe_failure_fails_fast_witness :
    (runMain envProbeFail fsEmpty).exitCode = 1
    ∧ Event.errLine errPython ∈ (runMain envProbeFail fsEmpty).events
    ∧ Event.readInstalled ∉ (runMain envProbeFail fsEmpty).events
    ∧ Event.readGitLast ∉ (runMain envProbeFail fsEmpty).events
    ∧ Event.runPip ∉ (runMain envProbeFail fsEmpty).events
    ∧ (∀ c, Event.launch c ∉ (runMain envProbeFail fsEmpty).events) :=
  interpreter_probe_failure_fails_fast envProbeFail fsEmpty rfl

/-- C8: when the interpreter probe fails, the bootstrap exits with status 1
before touching the filesystem: the final filesystem equals the initial one,
the temp directory is not created, and neither marker file is read or
written. -/
theorem probe_failure_touches_no_filesystem (env : Env) (fs : FS)
    (h : env.pythonProbe = none) :
    (runMain env fs).exitCode = 1
    ∧ (runMain env fs).fs = fs
    ∧ Event.createTemp ∉ (runMain env fs).events
    ∧ Event.readInstalled ∉ (runMain env fs).events
    ∧ Event.readGitLast ∉ (runMain env fs).events
    ∧ Event.writeInstalled ∉ (runMain env fs).events
    ∧ Event.writeGitLast ∉ (runMain env fs).events := by
  simp [runMain, h]

/-- C8 witness at a concrete run. -/
theorem probe_failure_touches_no_filesystem_witness :
    (runMain envProbeFail2 fsReady).exitCode = 1
    ∧ (runMain envProbeFail2 fsReady).fs = fsReady
    ∧ Event.createTemp ∉ (runMain envProbeFail2 fsReady).events
    ∧ Event.readInstalled ∉ (runMain envProbeFail2 fsReady).events
    ∧ Event.readGitLast ∉ (runMain envProbeFail2 fsReady).events
    ∧ Event.writeInstalled ∉ (runMain envProbeFail2 fsReady).events
    ∧ Event.writeGitLast ∉ (runMain envProbeFail2 fsReady).events :=
  probe_failure_touches_no_filesystem envProbeFail2 fsReady rfl

/-- C2 (counterexample): a child script exiting with status 3 makes the
bootstrap exit with status 1, not 3 — the exit status is not passed
through. -/
theorem child_exit_status_counterexample :
    envChild3.childExit = 3
    ∧ (runMain envChild3 fsReady).exitCode = 1
    ∧ (runMain envChild3 fsReady).exitCode ≠ envChild3.childExit := by
  refine ⟨rfl, rfl, ?_⟩
  decide

/-- C2 (amended): for every run that reaches the Script Launcher, the
bootstrap exits 0 when the child exits 0 and exits 1 on any non-zero child
status (the child's status is collapsed to 1, not passed through). -/
theorem launch_exit_zero_iff_child_zero (env : Env) (fs : FS)
    (hp : env.pythonProbe.isSome)
    (hrun : should_install (probeAt env 0) fs = false ∨ env.pipExit = 0) :
    (runMain env fs).exitCode = if env.childExit = 0 then 0 else 1 := by
  obtain ⟨v, hv⟩ := Option.isSome_iff_exists.mp hp
  rcases hrun with hgate | hpip
  · simp [runMain, hv, should_install_temp_folder, hgate, launchPhase_exitCode]
  · by_cases hgate : should_install (probeAt env 0) fs = true
    · simp [runMain, hv, should_install_temp_folder, hgate, hpip, launchPhase_exitCode]
    · simp only [Bool.not_eq_true] at hgate
      simp [runMain, hv, should_install_temp_folder, hgate, launchPhase_exitCode]

/-- C2 witness at a concrete run. -/
theorem launch_exit_zero_iff_child_zero_witness :
    (runMain envInstallOk fsEmpty).exitCode = if envInstallOk.childExit = 0 then 0 else 1 :=
  launch_exit_zero_iff_child_zero envInstallOk fsEmpty rfl (Or.inr rfl)

/-- C4: when pip exits non-zero the bootstrap prints a diagnostic and exits
with status 1, both marker files keep their prior state (no write events
occur), and the Script Launcher is never invoked. -/
theorem pip_failure_aborts_without_markers (env : Env) (fs : FS)
    (hp : env.pythonProbe.isSome)
    (hgate : should_install (probeAt env 0) fs = true)
    (hpip : env.pipExit ≠ 0) :
    (runMain env fs).exitCode = 1
    ∧ Event.errLine errPip ∈ (runMain env fs).events
    ∧ (runMain env fs).fs.installed = fs.installed
    ∧ (runMain env fs).fs.gitLast = fs.gitLast
    ∧ Event.writeInstalled ∉ (runMain env fs).events
    ∧ Event.writeGitLast ∉ (runMain env fs).events
    ∧ (∀ c, Event.launch c ∉ (runMain env fs).events) := by
  obtain ⟨v, hv⟩ := Option.isSome_iff_exists.mp hp
  have hrw : runMain env fs =
      { exitCode := 1, fs := (get_temp_folder_path fs).1,
        events := preEvents (probeAt env 0) fs
          ++ [Event.runPip, Event.errLine errPip] } := by
    simp [runMain, hv, should_install_temp_folder, hgate, hpip]
  rw [hrw]
  refine ⟨rfl, ?_, ?_, ?_, ?_, ?_, ?_⟩
  · simp
  · simp [get_temp_folder_path_fst]
  · simp [get_temp_folder_path_fst]
  · intro h
    rcases List.mem_append.mp h with h1 | h1
    · exact (preEvents_no_write _ _).1 h1
    · simp at h1
  · intro h
    rcases List.mem_append.mp h with h1 | h1
    · exact (preEvents_no_write _ _).2 h1
    · simp at h1
  · intro c h
    rcases List.mem_append.mp h with h1 | h1
    · exact preEvents_no_launch _ _ c h1
    · simp at h1

/-- C4 witness at a concrete run. -/
theorem pip_failure_aborts_without_markers_witness :
    (runMain envPipFail fsEmpty).exitCode = 1
    ∧ Event.errLine errPip ∈ (runMain envPipFail fsEmpty).events
    ∧ (runMain envPipFail fsEmpty).fs.installed = fsEmpty.installed
    ∧ (runMain envPipFail fsEmpty).fs.gitLast = fsEmpty.gitLast
    ∧ Event.writeInstalled ∉ (runMain envPipFail fsEmpty).events
    ∧ Event.writeGitLast ∉ (runMain envPipFail fsEmpty).events
    ∧ (∀ c, Event.launch c ∉ (runMain envPipFail fsEmpty).events) :=
  pip_failure_aborts_without_markers envPipFail fsEmpty rfl rfl (by decide)

/-- C5: when the gate asks for installation and pip succeeds, the run writes
both markers: the Installed Marker sentinel is created with contents
`"installed"`, and the Revision Marker ends up holding exactly the trimmed
current revision identifier (the revision probes of the run all return `raw`),
whatever the two files held before. -/
theorem install_success_writes_both_markers (env : Env) (fs : FS) (raw : String)
    (hp : env.pythonProbe.isSome)
    (hg : env.gitProbes = [some raw, some raw])
    (hgate : should_install (some raw) fs = true)
    (hpip : env.pipExit = 0) :
    (runMain env fs).fs.installed = some "installed"
    ∧ (runMain env fs).fs.gitLast = some (trim raw)
    ∧ trim (trim raw) = trim raw
    ∧ Event.writeInstalled ∈ (runMain env fs).events
    ∧ Event.writeGitLast ∈ (runMain env fs).events := by
  obtain ⟨v, hv⟩ := Option.isSome_iff_exists.mp hp
  have h0 : probeAt env 0 = some raw := by rw [probeAt, hg]; rfl
  have h1 : probeAt env 1 = some raw := by rw [probeAt, hg]; rfl
  have hw : probeAt env (if is_first_time_installed (get_temp_folder_path fs).1 = true
      then 0 else 1) = some raw := by
    by_cases hft : is_first_time_installed (get_temp_folder_path fs).1 = true <;>
      simp [hft, h0, h1]
  have hrw : runMain env fs = launchPhase env
      (update_git_commit_hash (some raw) (mark_as_installed (get_temp_folder_path fs).1))
      (preEvents (probeAt env 0) fs ++
        [Event.runPip, Event.writeInstalled, Event.gitProbe, Event.writeGitLast]) := by
    simp [runMain, hv, h0, should_install_temp_folder, hgate, hpip, hw]
  rw [hrw]
  refine ⟨?_, ?_, trim_trim raw, ?_, ?_⟩
  · rw [launchPhase_fs]; rfl
  · rw [launchPhase_fs]; rfl
  · rw [launchPhase_events]; simp
  · rw [launchPhase_events]; simp

/-- C5 witness at a concrete run. -/
theorem install_success_writes_both_markers_witness :
    (runMain envInstallOk fsEmpty).fs.installed = some "installed"
    ∧ (runMain envInstallOk fsEmpty).fs.gitLast = some (trim "  bbb\n")
    ∧ trim (trim "  bbb\n") = trim "  bbb\n"
    ∧ Event.writeInstalled ∈ (runMain envInstallOk fsEmpty).events
    ∧ Event.writeGitLast ∈ (runMain envInstallOk fsEmpty).events :=
  install_success_writes_both_markers envInstallOk fsEmpty "  bbb\n" rfl rfl (by decide) rfl

/-- C9: after a successful installation on a run whose Installed Marker was
present, the value written to the Revision Marker comes from the second,
write-time revision probe (`g2`), not the gate-time one (`g1`); when that
second probe fails the marker is still created, holding the empty string. -/
theorem revision_marker_from_second_probe (env : Env) (fs : FS) (s : String)
    (g1 g2 : Option String)
    (hp : env.pythonProbe.isSome)
    (hg : env.gitProbes = [g1, g2])
    (hins : fs.installed = some s)
    (hgate : git_has_updated g1 fs = true)
    (hpip : env.pipExit = 0) :
    (runMain env fs).fs.gitLast = some (get_git_commit_hash g2)
    ∧ (g2 = none → (runMain env fs).fs.gitLast = some "") := by
  obtain ⟨v, hv⟩ := Option.isSome_iff_exists.mp hp
  have h0 : probeAt env 0 = g1 := by rw [probeAt, hg]; rfl
  have h1 : probeAt env 1 = g2 := by rw [probeAt, hg]; rfl
  have hft : is_first_time_installed (get_temp_folder_path fs).1 = false := by
    rw [get_temp_folder_path_fst]
    simp [is_first_time_installed, hins]
  have hgate2 : should_install g1 fs = true := by
    simp [should_install, is_first_time_installed, hins, hgate]
  have hw : probeAt env (if is_first_time_installed (get_temp_folder_path fs).1 = true
      then 0 else 1) = g2 := by
    simp [hft, h1]
  have hrw : runMain env fs = launchPhase env
      (update_git_commit_hash g2 (mark_as_installed (get_temp_folder_path fs).1))
      (preEvents (probeAt env 0) fs ++
        [Event.runPip, Event.writeInstalled, Event.gitProbe, Event.writeGitLast]) := by
    simp [runMain, hv, h0, should_install_temp_folder, hgate2, hpip, hw]
  rw [hrw]
  constructor
  · rw [launchPhase_fs]; rfl
  · intro hnone
    subst hnone
    rw [launchPhase_fs]; rfl

/-- C9 witness at a concrete run: the gate-time probe succeeds with `ccc`, the
write-time probe fails, and the marker is created containing the empty
string. -/
theorem revision_marker_from_second_probe_witness :
    (runMain envSecondProbeFails fsNoRev).fs.gitLast =
      some (get_git_commit_hash none)
    ∧ (none = (none : Option String) →
        (runMain envSecondProbeFails fsNoRev).fs.gitLast = some "") :=
  revision_marker_from_second_probe envSecondProbeFails fsNoRev "installed"
    (some "ccc\n") none rfl rfl rfl (by decide) rfl

lemma launchPhase_pipCount (env : Env) (fs : FS) (evs : List Event) :
    pipCount (launchPhase env fs evs) = List.count Event.runPip evs := by
  unfold pipCount
  rw [launchPhase_events, List.count_append]
  by_cases h : env.childExit = 0 <;> simp [h, List.count_cons]

lemma launchPhase_launchCount (env : Env) (fs : FS) (evs : List Event) :
    launchCount (launchPhase env fs evs) = List.countP isLaunch evs + 1 := by
  unfold launchCount
  rw [launchPhase_events, List.countP_append]
  by_cases h : env.childExit = 0 <;> simp [h, List.countP_cons, isLaunch]

/-- C6: running the bootstrap twice in a row — the first run installing
successfully, both runs seeing the same revision-probe outcome `g` whose
trimmed value is a single line — runs pip exactly once in total and launches
the script exactly once per run. -/
theorem bootstrap_twice_installs_once (env1 env2 : Env) (fs0 : FS) (g : Option String)
    (h1 : env1.pythonProbe.isSome) (h2 : env2.pythonProbe.isSome)
    (hg1 : env1.gitProbes = [g, g]) (hg2 : env2.gitProbes = [g, g])
    (hpip : env1.pipExit = 0)
    (hgate : should_install g fs0 = true)
    (hnl : ∀ raw, g = some raw → firstLine (trim raw) = trim raw) :
    pipCount (runMain env1 fs0) + pipCount (runMain env2 (runMain env1 fs0).fs) = 1
    ∧ launchCount (runMain env1 fs0) = 1
    ∧ launchCount (runMain env2 (runMain env1 fs0).fs) = 1 := by
  obtain ⟨v1, hv1⟩ := Option.isSome_iff_exists.mp h1
  obtain ⟨v2, hv2⟩ := Option.isSome_iff_exists.mp h2
  have e10 : probeAt env1 0 = g := by rw [probeAt, hg1]; rfl
  have e11 : probeAt env1 1 = g := by rw [probeAt, hg1]; rfl
  have e20 : probeAt env2 0 = g := by rw [probeAt, hg2]; rfl
  have hw1 : probeAt env1 (if is_first_time_installed (get_temp_folder_path fs0).1 = true
      then 0 else 1) = g := by
    by_cases hft : is_first_time_installed (get_temp_folder_path fs0).1 = true <;>
      simp [hft, e10, e11]
  have hrw1 : runMain env1 fs0 = launchPhase env1
      (update_git_commit_hash g (mark_as_installed (get_temp_folder_path fs0).1))
      (preEvents (probeAt env1 0) fs0 ++
        [Event.runPip, Event.writeInstalled, Event.gitProbe, Event.writeGitLast]) := by
    simp [runMain, hv1, e10, should_install_temp_folder, hgate, hpip, hw1]
  have hfs2 : (runMain env1 fs0).fs =
      { tempExists := true, installed := some "installed",
        gitLast := some (get_git_commit_hash g) } := by
    rw [hrw1, launchPhase_fs, get_temp_folder_path_fst]
    rfl
  have hgate2 : should_install g
      { tempExists := true, installed := some "installed",
        gitLast := some (get_git_commit_hash g) } = false := by
    cases g with
    | none => rfl
    | some raw =>
      by_cases hcur : trim raw = ""
      · simp [should_install, is_first_time_installed, git_has_updated,
          get_git_commit_hash, hcur]
      · have hfl := hnl raw rfl
        simp [should_install, is_first_time_installed, git_has_updated,
          get_git_commit_hash, hcur, hfl, trim_trim]
  have hrw2 : runMain env2 (runMain env1 fs0).fs = launchPhase env2
      (get_temp_folder_path (runMain env1 fs0).fs).1
      (preEvents (probeAt env2 0) (runMain env1 fs0).fs) := by
    rw [hfs2]
    simp [runMain, hv2, e20, should_install_temp_folder, hgate2]
  refine ⟨?_, ?_, ?_⟩
  · rw [hrw2, hrw1, launchPhase_pipCount, launchPhase_pipCount,
      List.count_append, preEvents_count_pip, preEvents_count_pip]
    rfl
  · rw [hrw1, launchPhase_launchCount, List.countP_append, preEvents_countP_launch]
    rfl
  · rw [hrw2, launchPhase_launchCount, preEvents_countP_launch]

/-- C6 witness at a concrete pair of runs. -/
theorem bootstrap_twice_installs_once_witness :
    pipCount (runMain envIdem fsEmpty) +
        pipCount (runMain envIdem (runMain envIdem fsEmpty).fs) = 1
    ∧ launchCount (runMain envIdem fsEmpty) = 1
    ∧ launchCount (runMain envIdem (runMain envIdem fsEmpty).fs) = 1 :=
  bootstrap_twice_installs_once envIdem envIdem fsEmpty (some "ddd\n") rfl rfl rfl rfl rfl
    (by decide)
    (by
      intro raw hr
      injection hr with h
      subst h
      decide)

lemma wordsAux_nil (acc : List Char) :
    wordsAux [] acc = if acc = [] then [] else [acc.reverse] := rfl

lemma wordsAux_cons (c : Char) (rest acc : List Char) :
    wordsAux (c :: rest) acc =
      if c = ' ' then
        (if acc = [] then wordsAux rest [] else acc.reverse :: wordsAux rest [])
      else wordsAux rest (c :: acc) := rfl

lemma wordsAux_no_space (w : List Char) (rest acc : List Char) (hw : ' ' ∉ w) :
    wordsAux (w ++ rest) acc = wordsAux rest (w.reverse ++ acc) := by
  induction w generalizing acc with
  | nil => simp
  | cons c t ih =>
    have hc : ¬ (c = ' ') := by
      intro h
      subst h
      exact hw (List.mem_cons_self _ _)
    have ht : ' ' ∉ t := fun h => hw (List.mem_cons_of_mem c h)
    rw [List.cons_append, wordsAux_cons, if_neg hc, ih (c :: acc) ht]
    simp

lemma wordsAux_flush (Y acc : List Char) (hY : Y = [] ∨ ∃ Z, Y = ' ' :: Z) :
    wordsAux Y acc = (if acc = [] then [] else [acc.reverse]) ++ wordsAux Y [] := by
  rcases hY with h | ⟨Z, h⟩ <;> subst h
  · by_cases ha : acc = [] <;> simp [wordsAux_nil, ha]
  · by_cases ha : acc = [] <;> simp [wordsAux_cons, ha]

lemma nil_not_mem_wordsAux (l : List Char) (acc : List Char) : [] ∉ wordsAux l acc := by
  induction l generalizing acc with
  | nil =>
    by_cases h : acc = [] <;> simp [wordsAux_nil, h, List.reverse_eq_nil_iff]
  | cons c rest ih =>
    rw [wordsAux_cons]
    by_cases hc : c = ' '
    · by_cases ha : acc = [] <;> simp [hc, ha, ih, List.reverse_eq_nil_iff]
    · simp only [if_neg hc]
      exact ih _

lemma argsChars_cons (a : String) (rest : List String) :
    argsChars (a :: rest) = ' ' :: (a.data ++ argsChars rest) := rfl

lemma argsChars_shape (args : List String) :
    argsChars args = [] ∨ ∃ Z, argsChars args = ' ' :: Z := by
  cases args with
  | nil => exact Or.inl rfl
  | cons a rest => exact Or.inr ⟨a.data ++ argsChars rest, rfl⟩

lemma words_argsChars (args : List String) (ha : ∀ a ∈ args, ' ' ∉ a.data) :
    words (argsChars args) =
      (args.map String.data).filter (fun l => decide (l ≠ [])) := by
  induction args with
  | nil => rfl
  | cons a rest ih =>
    have hsp : ' ' ∉ a.data := ha a (List.mem_cons_self _ _)
    have hrest : ∀ b ∈ rest, ' ' ∉ b.data := fun b hb => ha b (List.mem_cons_of_mem a hb)
    unfold words
    rw [argsChars_cons, wordsAux_cons, if_pos rfl, if_pos rfl,
      wordsAux_no_space a.data _ [] hsp, List.append_nil,
      wordsAux_flush _ _ (argsChars_shape rest)]
    have hw : wordsAux (argsChars rest) [] =
        (rest.map String.data).filter (fun l => decide (l ≠ [])) := ih hrest
    rw [hw]
    by_cases hd : a.data = [] <;>
      simp [hd, List.filter_cons, List.reverse_eq_nil_iff, List.reverse_reverse]

lemma foldl_append_args_data (args : List String) (pre : String) :
    (args.foldl (fun cmd a => cmd ++ " " ++ a) pre).data = pre.data ++ argsChars args := by
  induction args generalizing pre with
  | nil => simp [argsChars]
  | cons a rest ih =>
    rw [List.foldl_cons, ih, argsChars_cons]
    simp [String.data_append, List.append_assoc]

lemma python_command_data (script : String) (args : List String) :
    (python_command script args).data =
      "python".data ++ (' ' :: (script.data ++ argsChars args)) := by
  unfold python_command
  rw [foldl_append_args_data, String.data_append]
  have hp : "python ".data = "python".data ++ [' '] := by decide
  rw [hp]
  simp [List.append_assoc]

lemma words_python_command (script : String) (args : List String)
    (hs1 : script.data ≠ []) (hs2 : ' ' ∉ script.data)
    (ha : ∀ a ∈ args, ' ' ∉ a.data) :
    words (python_command script args).data =
      "python".data :: script.data ::
        (args.map String.data).filter (fun l => decide (l ≠ [])) := by
  have hpy : ' ' ∉ "python".data := by decide
  have hrev : ¬ ("python".data.reverse = []) := by decide
  have hsrev : ¬ (script.data.reverse = []) := by
    simpa [List.reverse_eq_nil_iff] using hs1
  unfold words
  rw [python_command_data, wordsAux_no_space "python".data _ [] hpy, List.append_nil,
    wordsAux_cons, if_pos rfl, if_neg hrev, List.reverse_reverse,
    wordsAux_no_space script.data _ [] hs2, List.append_nil,
    wordsAux_flush _ _ (argsChars_shape args), if_neg hsrev, List.reverse_reverse]
  have hw : wordsAux (argsChars args) [] =
      (args.map String.data).filter (fun l => decide (l ≠ [])) := words_argsChars args ha
  rw [hw]
  rfl

lemma spaceJoin_cons_data (w : String) (ws : List String) :
    (spaceJoin (w :: ws)).data = w.data ++ argsChars ws := by
  induction ws generalizing w with
  | nil => simp [spaceJoin, argsChars]
  | cons b rest ih =>
    show (w ++ " " ++ spaceJoin (b :: rest)).data = _
    rw [String.data_append, String.data_append, ih b, argsChars_cons]
    simp [List.append_assoc]

lemma empty_not_received (cmd : String) : ∀ s ∈ receivedArgs cmd, s ≠ "" := by
  intro s hs hempty
  subst hempty
  unfold receivedArgs at hs
  obtain ⟨w, hw, hmk⟩ := List.mem_map.mp hs
  have hwnil : w = [] := by
    have hd : (String.mk w).data = ("" : String).data := by rw [hmk]
    simpa using hd
  subst hwnil
  exact nil_not_mem_wordsAux _ _ (List.mem_of_mem_drop hw)

/-- C7 (counterexample): with forwarded argument list `[""]` the launched
script receives no argument at all — the empty argument contributes only a
separator to the space-joined command line, so the script does not receive
the bootstrap's arguments verbatim. -/
theorem forwarded_args_counterexample :
    receivedArgs (python_command "main.py" [""]) ≠ [""]
    ∧ receivedArgs (python_command "main.py" [""]) = [] := by
  constructor
  · decide
  · decide

/-- C7 (amended): the launched script receives exactly the bootstrap's
arguments (excluding argument 0), verbatim and in order, provided each
forwarded argument is non-empty and contains no space character (the script
path being a non-empty, space-free word as well); arguments are appended to
the command line unmodified, so an empty or space-containing argument is not
delivered as one distinct argument. -/
theorem forwarded_args_received_when_wellformed (script : String) (args : List String)
    (hs1 : script.data ≠ []) (hs2 : ' ' ∉ script.data)
    (ha : ∀ a ∈ args, ' ' ∉ a.data ∧ a.data ≠ []) :
    receivedArgs (python_command script args) = args := by
  unfold receivedArgs
  rw [words_python_command script args hs1 hs2 (fun a h => (ha a h).1)]
  have hfil : (args.map String.data).filter (fun l => decide (l ≠ [])) =
      args.map String.data := by
    apply List.filter_eq_self.mpr
    intro l hl
    obtain ⟨a, ha2, rfl⟩ := List.mem_map.mp hl
    exact decide_eq_true (ha a ha2).2
  rw [List.drop_succ_cons, List.drop_succ_cons, List.drop_zero, hfil, List.map_map]
  have hid : (String.mk ∘ String.data) = id := funext fun a => rfl
  rw [hid, List.map_id]

/-- C7 witness at a concrete run: arguments `["--x", "1"]` are received
exactly. -/
theorem forwarded_args_received_when_wellformed_witness :
    receivedArgs (python_command "main.py" ["--x", "1"]) = ["--x", "1"] :=
  forwarded_args_received_when_wellformed "main.py" ["--x", "1"] (by decide) (by decide)
    (by
      intro a h
      simp only [List.mem_cons, List.not_mem_nil, or_false] at h
      rcases h with rfl | rfl
      · exact ⟨by decide, by decide⟩
      · exact ⟨by decide, by decide⟩)

/-- C10: the child command line is the interpreter word, the script path and
the forwarded arguments joined with single space characters, and consequently
an empty-string argument is never delivered to the launched script as a
distinct argument (shell field-splitting produces no empty word). -/
theorem launcher_joins_with_single_spaces (script : String) (args : List String) :
    python_command script args = spaceJoin ("python" :: script :: args)
    ∧ ∀ s ∈ receivedArgs (python_command script args), s ≠ "" := by
  constructor
  · apply String.ext
    rw [python_command_data, spaceJoin_cons_data, argsChars_cons]
  · exact empty_not_received _

/-- C10 witness at a concrete input containing an empty argument. -/
theorem launcher_joins_with_single_spaces_witness :
    python_command "main.py" ["a", "", "b"] = spaceJoin ("python" :: "main.py" :: ["a", "", "b"])
    ∧ "" ∉ receivedArgs (python_command "main.py" ["a", "", "b"]) := by
  have h := launcher_joins_with_single_spaces "main.py" ["a", "", "b"]
  exact ⟨h.1, fun hmem => h.2 "" hmem rfl⟩
